import Mathlib

/-!
Verification of the pricing & policy resolution core of the pricing-app
repository, as a shallow embedding in Lean 4.

Modelling conventions, chosen once for the whole development:

* Python `float` prices are modelled as `ℚ` (exact rational arithmetic);
  the decimal trace rendering `f"{x:.2f}"` is abstracted by `money`,
  which renders the exact rational.
* Pandas tables are modelled as lists of typed row records, in table
  order.  A cell that is absent or null (`NaN`) is an `Option` that is
  `none`; the loaders in the source strip whitespace and `fillna('')`,
  which is reflected in the row types (string cells default to `""`).
* The ambient current date (`datetime.now().strftime('%Y-%m-%d')`) is an
  explicit `today : String` argument threaded through the engine.
* The compiled rule artifact is validated upstream
  (`compile_rules.py`: `action_value` numeric unless `set_tier`), so a
  rule action is the typed inductive `Action` below.
* Dictionaries produced as outputs (`intel`, hold details) are modelled
  as association lists in insertion order.
-/

namespace PricingTool

/-- Python truthiness of an optional string: `None` and `""` are falsy. -/
def isTruthy : Option String → Bool
  | none => false
  | some s => s ≠ ""

/-- Strip of ASCII whitespace from both ends, modelling `str.strip()`.
Implemented structurally so that the kernel can evaluate it. -/
def pyStrip (s : String) : String :=
  String.mk (((s.toList.dropWhile Char.isWhitespace).reverse.dropWhile Char.isWhitespace).reverse)

/-- Helper of `pySplit`: split a character list at every separator. -/
def pySplitAux (sep : Char) : List Char → List Char → List (List Char)
  | [], acc => [acc.reverse]
  | c :: rest, acc =>
    if c = sep then acc.reverse :: pySplitAux sep rest [] else pySplitAux sep rest (c :: acc)

/-- Split on a separator character, modelling `str.split(sep)` (an empty
string yields one empty field). -/
def pySplit (sep : Char) (s : String) : List String :=
  (pySplitAux sep s.toList []).map String.mk

/-- Join with a separator, modelling `sep.join(parts)`. -/
def pyJoin (sep : String) : List String → String
  | [] => ""
  | p :: ps => ps.foldl (fun acc q => acc ++ sep ++ q) p

/-- Uppercasing, modelling `str.upper()` on ASCII data. -/
def pyUpper (s : String) : String :=
  String.mk (s.toList.map Char.toUpper)

/-- Lowercasing, modelling `str.lower()` on ASCII data. -/
def pyLower (s : String) : String :=
  String.mk (s.toList.map Char.toLower)

/-- Helper of `containsSub`: check every suffix for the needle. -/
def containsSubAux (n : List Char) : List Char → Bool
  | [] => n.isPrefixOf []
  | c :: rest => n.isPrefixOf (c :: rest) || containsSubAux n rest

/-- Substring test, modelling Python `needle in hay`. -/
def containsSub (needle hay : String) : Bool :=
  containsSubAux needle.toList hay.toList

/-- Order-preserving de-duplication, modelling `pandas.Series.unique()`
(first occurrence wins, order of appearance kept). -/
def uniques (l : List String) : List String :=
  l.foldl (fun acc x => if acc.contains x then acc else acc ++ [x]) []

/-- Rendering of a price in the human-readable trace; the two-decimal
formatting of the source is abstracted to the exact rational. -/
def money (q : ℚ) : String :=
  "$" ++ toString q

/-- Trace step, from `models.TraceStep` (step, description, optional value). -/
structure TraceStep where
  step : String
  description : String
  value : Option String := none
  deriving Repr, DecidableEq

/-- Typed action of a compiled rule (models the `action` object of
`compiled_rules.json`; the loose `action_value` is numeric for the four
price actions and a string for `set_tier`, per upstream validation).
`other` covers an action type outside the five known kinds, which the
engine silently ignores. -/
inductive Action where
  | set_tier (tier : String)
  | override_unit_price (v : ℚ)
  | discount_percent (v : ℚ)
  | discount_amount (v : ℚ)
  | price_floor (v : ℚ)
  | other (type : String) (value : String)
  deriving Repr, DecidableEq

/-- String payload used by the `set_tier` branch (`str(rule.action_value)`). -/
def Action.tierVal : Action → String
  | .set_tier t => t
  | _ => ""

/-- Compiled rule record as consumed by `RuleMatcher` (from
`compiled_rules.json`; `sku_pre` models the JSON key `sku_prefix`).
Match fields that are absent are `none`; the matcher also treats an
empty string (or a zero quantity bound) as absent, mirroring Python
truthiness on `match.get(...)`. -/
structure Rule where
  rule_id : String
  name : Option String := none
  active : Bool := true
  priority : Int := 50
  account : Option String := none
  account_group : Option String := none
  sku : Option String := none
  sku_pre : Option String := none
  min_qty : Option Int := none
  max_qty : Option Int := none
  start_date : Option String := none
  end_date : Option String := none
  action : Action
  deriving Repr, DecidableEq

/-- Matched rule with context, from `rule_matcher.MatchedRule`. -/
structure MatchedRule where
  rule_id : String
  name : String
  priority : Int
  action : Action
  match_reason : String
  deriving Repr, DecidableEq

/-- Rule matcher state: the rules of `compiled_rules.json` that are
`active` (filtering done at load in `_load_rules`), and the `loaded` flag. -/
structure RuleMatcher where
  rules : List Rule
  loaded : Bool
  deriving Repr, DecidableEq

/-- Sequential condition check of `find_matching_rules` for one rule,
returning `none` on a failed condition (`continue`) and otherwise the
accumulated match reasons, in the order the source checks them. -/
def ruleMatch? (rule : Rule) (account_id : String) (account_group : Option String)
    (sku : String) (qty : Int) (today : String) : Option (List String) := do
  -- account: exact string equality, checked only when the field is truthy
  let r1 : List String ←
    match rule.account with
    | none => some []
    | some a =>
      if a = "" then some []
      else if a = account_id then some ["account=" ++ account_id] else none
  -- account_group: the rule's group must appear in the comma-split caller groups
  let r2 : List String ←
    match rule.account_group with
    | none => some r1
    | some g =>
      if g = "" then some r1
      else
        let rule_grp := pyStrip g
        let req_groups :=
          if isTruthy account_group then
            (pySplit (Char.ofNat 44) (account_group.getD "")).map pyStrip
          else []
        if req_groups.contains rule_grp then some (r1 ++ ["group=" ++ rule_grp]) else none
  -- sku: exact match or the wildcard "*"
  let r3 : List String ←
    match rule.sku with
    | none => some r2
    | some s =>
      if s = "" then some r2
      else if s = sku ∨ s = "*" then some (r2 ++ ["sku=" ++ sku]) else none
  -- sku_prefix: case-sensitive prefix match on the stripped value
  let r4 : List String ←
    match rule.sku_pre with
    | none => some r3
    | some p =>
      if p = "" then some r3
      else if (pyStrip p).toList.isPrefixOf sku.toList then
        some (r3 ++ ["sku_prefix=" ++ pyStrip p]) else none
  -- quantity range (a zero bound is falsy in Python and thus skipped)
  let r5 : List String ←
    match rule.min_qty with
    | none => some r4
    | some n =>
      if n = 0 then some r4
      else if qty < n then none else some (r4 ++ ["qty>=" ++ toString n])
  let r6 : List String ←
    match rule.max_qty with
    | none => some r5
    | some n =>
      if n = 0 then some r5
      else if qty > n then none else some (r5 ++ ["qty<=" ++ toString n])
  -- date range, inclusive, on lexicographically comparable ISO dates
  let r7 : List String ←
    match rule.start_date with
    | none => some r6
    | some d =>
      if d = "" then some r6
      else if today < d then none else some (r6 ++ ["after " ++ d])
  let r8 : List String ←
    match rule.end_date with
    | none => some r7
    | some d =>
      if d = "" then some r7
      else if today > d then none else some (r7 ++ ["before " ++ d])
  pure r8

/-- Encounter-order list of matched rules (the `matched` list of
`find_matching_rules` before the final sort). -/
def matchedRules (rules : List Rule) (account_id : String) (account_group : Option String)
    (sku : String) (qty : Int) (today : String) : List MatchedRule :=
  rules.filterMap fun rule =>
    match ruleMatch? rule account_id account_group sku qty today with
    | none => none
    | some reasons =>
      some { rule_id := rule.rule_id
             name := rule.name.getD rule.rule_id
             priority := rule.priority
             action := rule.action
             match_reason := if reasons = [] then "default" else String.intercalate ", " reasons }

/-- Priority comparison used by the final sort of `find_matching_rules`
(`matched.sort(key=lambda r: r.priority)`). -/
def lePriority (a b : MatchedRule) : Bool :=
  decide (a.priority ≤ b.priority)

/-- Rule lookup of `RuleMatcher.find_matching_rules`: filter in encounter
order, then a stable sort ascending by priority (Python `list.sort` is
stable; modelled by the stable `List.mergeSort`).  The `request_date`
parameter defaults to the ambient date when falsy. -/
def RuleMatcher.find_matching_rules (m : RuleMatcher) (account_id : String)
    (account_group : Option String) (sku : String) (qty : Int)
    (request_date : Option String) (today : String) : List MatchedRule :=
  if ¬ m.loaded then []
  else
    let d := if isTruthy request_date then request_date.getD "" else today
    (matchedRules m.rules account_id account_group sku qty d).mergeSort lePriority

/-- Price/tier application of `RuleMatcher.apply_rule_to_price`; returns
(new price, new tier, trace messages). -/
def apply_rule_to_price (rule : MatchedRule) (base_price : ℚ) (current_tier : String) :
    ℚ × String × List String :=
  match rule.action with
  | .set_tier t =>
    (base_price, t, ["Rule " ++ rule.rule_id ++ " set tier to " ++ t])
  | .override_unit_price v =>
    (v, current_tier, ["Rule " ++ rule.rule_id ++ " set price to " ++ money v])
  | .discount_percent v =>
    (base_price * (1 - v / 100), current_tier,
      ["Rule " ++ rule.rule_id ++ " applied " ++ toString v ++ "% discount: " ++
        money base_price ++ " → " ++ money (base_price * (1 - v / 100))])
  | .discount_amount v =>
    (max 0 (base_price - v), current_tier,
      ["Rule " ++ rule.rule_id ++ " applied " ++ money v ++ " discount: " ++
        money base_price ++ " → " ++ money (max 0 (base_price - v))])
  | .price_floor v =>
    if base_price < v then
      (v, current_tier,
        ["Rule " ++ rule.rule_id ++ " enforced price floor: " ++
          money base_price ++ " → " ++ money v])
    else
      (base_price, current_tier,
        ["Rule " ++ rule.rule_id ++ " price floor " ++ money v ++
          " not applied (price " ++ money base_price ++ " already above)"])
  | .other _ _ => (base_price, current_tier, [])

/-- Trace step constructor shorthand. -/
def ts (s d : String) (v : Option String) : TraceStep :=
  { step := s, description := d, value := v }

/-- Row of the master catalog: key, optional description (`none` models a
null `Description` cell), mandatory MSRP, and the sparse tier price
columns — a pair `(col, p)` is a `{TIER}_Price` column that is present
and non-null for this SKU. -/
structure CatalogRow where
  sku : String
  description : Option String := none
  msrp : ℚ
  tierPrices : List (String × ℚ) := []
  deriving Repr, DecidableEq

/-- Row of the Program Map sheet (direct mapping table), columns
`Match Value` / `Program ID`, whitespace-stripped at load. -/
structure MapRow where
  matchValue : String
  programId : String
  deriving Repr, DecidableEq

/-- Row of the Group Members sheet, columns `Account Number` / `Group ID`. -/
structure GroupRow where
  accountNumber : String
  groupId : String
  deriving Repr, DecidableEq

/-- Row of the account-intel table, columns
`Match Value` / `Freight` / `Terms` / `Notes`. -/
structure IntelRow where
  matchValue : String
  freight : String
  terms : String
  notes : String
  deriving Repr, DecidableEq

/-- Pricing request, from `models.Request`; `items` keeps the supplied
order (Python dicts iterate in insertion order). -/
structure Request where
  account_id : String
  items : List (String × Int)
  channel : Option String := none
  request_date : Option String := none
  order_date : Option String := none
  payment_method : Option String := none
  order_type : Option Int := none
  ship_method : Option String := none
  ship_to_type : Option String := none
  customer_tier : Option String := none
  deriving Repr, DecidableEq

/-- Line item of a quote result, from `models.LineItem`. -/
structure LineItem where
  sku : String
  description : String
  quantity : Int
  unit_price : ℚ
  extended_price : ℚ
  tier_used : String
  source : String
  rules_applied : List String := []
  warnings : List String := []
  trace : List TraceStep := []
  deriving Repr, DecidableEq

/-- Hold attached by the policy layer (code, message, details dict). -/
structure Hold where
  code : String
  message : String
  details : List (String × Option String) := []
  deriving Repr, DecidableEq

/-- Payment-terms object of the policy output. -/
structure Terms where
  code : String
  net_days : Option Int
  due_date : Option String := none
  notes : List String := []
  needs_review : Bool := false
  review_reason : Option String := none
  deriving Repr, DecidableEq

/-- Freight object of the policy output. -/
structure Freight where
  mode : String
  carrier_required : Option String := none
  bill_freight : Bool := true
  freight_amount : Option ℚ := none
  ffa_percent : Option ℚ := none
  deriving Repr, DecidableEq

/-- Order-level surcharge/credit adjustment. -/
structure Adjustment where
  code : String
  amount : ℚ
  description : String
  taxable : Bool
  deriving Repr, DecidableEq

/-- Policy object attached to a result by `apply_policies`. -/
structure Policy where
  active_program_id : String
  terms : Terms
  freight : Freight
  holds : List Hold := []
  adjustments : List Adjustment := []
  constraints : List (String × Bool) := []
  deriving Repr, DecidableEq

/-- Result of a pricing calculation, from `models.Result`; `policy` is
`none` until `apply_policies` attaches one (the empty dict default). -/
structure Result where
  account_id : String
  tier : String
  total : ℚ
  lines : List LineItem
  intel : List (String × String)
  policy : Option Policy := none
  warnings : List String := []
  trace : List TraceStep := []
  deriving Repr, DecidableEq

/-- Pricing engine state: the reference tables loaded at construction. -/
structure PricingEngine where
  catalog : List CatalogRow
  program_map : List MapRow
  group_members : List GroupRow
  account_intel : List IntelRow
  rule_matcher : RuleMatcher
  deriving Repr, DecidableEq

/-- Group ids an account belongs to, in table order of appearance,
de-duplicated (`group_members[...]['Group ID'].unique()`). -/
def PricingEngine.accountGroups (e : PricingEngine) (account_id : String) : List String :=
  uniques ((e.group_members.filter (fun r => r.accountNumber == account_id)).map (·.groupId))

/-- Dict produced for a matched intel row (`row.to_dict()`). -/
def IntelRow.toDict (r : IntelRow) : List (String × String) :=
  [("Match Value", r.matchValue), ("Freight", r.freight), ("Terms", r.terms), ("Notes", r.notes)]

/-- Freight/terms hints for an account, from
`PricingEngine.get_account_intel`: exact account row, else first intel
row matching any of the account's groups, else the `MSRP` row, else a
synthetic Unknown record. -/
def PricingEngine.get_account_intel (e : PricingEngine) (account_id : String) :
    List (String × String) :=
  let a := pyStrip account_id
  match e.account_intel.find? (fun r => r.matchValue == a) with
  | some r => r.toDict
  | none =>
    let groups := e.accountGroups a
    match (if groups.length > 0 then
             e.account_intel.find? (fun r => groups.contains r.matchValue)
           else none) with
    | some r => r.toDict
    | none =>
      match e.account_intel.find? (fun r => r.matchValue == "MSRP") with
      | some r => r.toDict
      | none => [("Freight", "Unknown"), ("Terms", "Unknown"), ("Notes", "")]

/-- Tier resolution of `PricingEngine.get_account_tier`: exact account
row of the Program Map, else the first Program Map row (in Program Map
table order) whose match value is one of the account's groups, else the
`"MSRP"` fallback. -/
def PricingEngine.get_account_tier (e : PricingEngine) (account_id : String) : String :=
  let a := pyStrip account_id
  match e.program_map.find? (fun r => r.matchValue == a) with
  | some r => r.programId
  | none =>
    let groups := e.accountGroups a
    match (if groups.length > 0 then
             e.program_map.find? (fun r => groups.contains r.matchValue)
           else none) with
    | some r => r.programId
    | none => "MSRP"

/-- Tier resolution with trace, from
`PricingEngine.get_account_tier_with_trace`. -/
def PricingEngine.get_account_tier_with_trace (e : PricingEngine) (account_id : String) :
    String × List TraceStep :=
  let a := pyStrip account_id
  let t0 : List TraceStep :=
    [⟨"Account Lookup", "Resolving tier for account " ++ a, none⟩]
  match e.program_map.find? (fun r => r.matchValue == a) with
  | some r =>
    (r.programId, t0 ++ [⟨"Direct Match", "Found direct account → tier mapping", some r.programId⟩])
  | none =>
    let t1 := t0 ++ [⟨"Direct Match", "No direct account mapping found", none⟩]
    let groups := e.accountGroups a
    if groups.length > 0 then
      let t2 := t1 ++ [⟨"Group Lookup", "Account belongs to groups", some (pyJoin ", " groups)⟩]
      match e.program_map.find? (fun r => groups.contains r.matchValue) with
      | some r => (r.programId, t2 ++ [⟨"Group → Tier", "Group mapped to tier", some r.programId⟩])
      | none => ("MSRP", t2 ++ [⟨"Fallback", "Using MSRP fallback", some "MSRP"⟩])
    else
      let t2 := t1 ++ [⟨"Group Lookup", "No group memberships found", none⟩]
      ("MSRP", t2 ++ [⟨"Fallback", "Using MSRP fallback", some "MSRP"⟩])

/-- Tier price lookup on one catalog row: the pair is present exactly
when the `{tier}_Price` column exists and is non-null
(`tier_column in product_data and pd.notna(...)`). -/
def CatalogRow.tierPrice (r : CatalogRow) (col : String) : Option ℚ :=
  (r.tierPrices.find? (fun p => p.1 == col)).map (·.2)

/-- Check for a price-modifying action (the four-kind tuple of
`_calculate_line`; `set_tier` and unknown kinds are excluded). -/
def MatchedRule.isPriceAction (r : MatchedRule) : Bool :=
  match r.action with
  | .override_unit_price _ => true
  | .discount_percent _ => true
  | .discount_amount _ => true
  | .price_floor _ => true
  | _ => false

/-- Check for a `set_tier` action. -/
def MatchedRule.isSetTier (r : MatchedRule) : Bool :=
  match r.action with
  | .set_tier _ => true
  | _ => false

/-- One step of the price-modifying loop of `_calculate_line`: apply the
rule to the line's current price, tag the source as `Rule`, record the
rule id and a trace line per message. -/
def applyPriceRule (ln : LineItem) (r : MatchedRule) : LineItem :=
  let res := apply_rule_to_price r ln.unit_price ln.tier_used
  { ln with
    unit_price := res.1
    source := "Rule"
    rules_applied := ln.rules_applied ++ [r.rule_id]
    trace := ln.trace ++ res.2.2.map (fun m => ts "Rule Applied" m (some (money res.1))) }

/-- Comma-joined group context resolved once per line
(`_calculate_line` lines 263-270): `none` when the account id is blank
or the account has no groups. -/
def lineGroupStr (e : PricingEngine) (account_id : String) : Option String :=
  let groups := if account_id ≠ "" then e.accountGroups account_id else []
  if account_id ≠ "" ∧ groups.length > 0 then some (pyJoin "," groups) else none

/-- Matching rules resolved for one line (`_calculate_line` lines
290-298): empty unless the matcher is loaded and the account id is
non-blank; the request date passed is `None`, so the ambient date
applies. -/
def lineMatchingRules (e : PricingEngine) (today sku account_id : String) (qty : Int) :
    List MatchedRule :=
  if e.rule_matcher.loaded ∧ account_id ≠ "" then
    e.rule_matcher.find_matching_rules account_id (lineGroupStr e account_id) sku qty none today
  else []

/-- Effective tier of one line: the value of the first matching
`set_tier` rule in priority order, else the account's base tier. -/
def lineEffectiveTier (e : PricingEngine) (today sku account_id : String) (qty : Int)
    (tier : String) : String :=
  match (lineMatchingRules e today sku account_id qty).find? (fun r => r.isSetTier) with
  | some r => r.action.tierVal
  | none => tier

/-- Line calculation of `PricingEngine._calculate_line`: `none` for a SKU
absent from the catalog; otherwise rule matching, first-`set_tier`
effective tier, tier-price lookup with MSRP fallback, cumulative
price-rule application, and extension. -/
def PricingEngine.calculate_line (e : PricingEngine) (today : String) (sku0 : String)
    (qty : Int) (tier : String) (account_id0 : String) : Option LineItem :=
  let sku := pyStrip sku0
  let account_id := pyStrip account_id0
  match e.catalog.find? (fun r => r.sku == sku) with
  | none => none
  | some product =>
    let group_str : Option String := lineGroupStr e account_id
    let line0 : LineItem :=
      { sku := sku
        description := product.description.getD "N/A"
        quantity := qty
        unit_price := 0
        extended_price := 0
        tier_used := tier
        source := "" }
    let line1 := { line0 with trace := line0.trace ++ [ts "SKU Lookup" "Found product in catalog" (some sku)] }
    let line1 :=
      match group_str with
      | some g => { line1 with trace := line1.trace ++ [ts "Context" "Account Groups" (some g)] }
      | none => line1
    let matching_rules := lineMatchingRules e today sku account_id qty
    let (effective_tier, line2) :=
      match matching_rules.find? (fun r => r.isSetTier) with
      | some r =>
        (r.action.tierVal,
          { line1 with
            tier_used := r.action.tierVal
            rules_applied := line1.rules_applied ++ [r.rule_id]
            trace := line1.trace ++
              [ts "Rule Applied" (r.name ++ " (" ++ r.rule_id ++ ")") (some ("tier → " ++ r.action.tierVal))] })
      | none => (tier, line1)
    let tier_column := effective_tier ++ "_Price"
    let line3 :=
      match product.tierPrice tier_column with
      | some p =>
        { line2 with
          unit_price := p
          source := "Contract"
          trace := line2.trace ++
            [ts "Price Resolution" ("Using " ++ effective_tier ++ " tier price") (some (money p))] }
      | none =>
        { line2 with
          unit_price := product.msrp
          source := "MSRP"
          tier_used := "MSRP"
          trace := line2.trace ++
            [ts "Price Resolution" ("No " ++ effective_tier ++ " price, using MSRP fallback") (some (money product.msrp))]
          warnings := line2.warnings ++ ["MSRP fallback used for SKU " ++ sku] }
    let line4 := matching_rules.foldl
      (fun ln r => if r.isPriceAction then applyPriceRule ln r else ln) line3
    some { line4 with
           extended_price := line4.unit_price * (qty : ℚ)
           trace := line4.trace ++
             [ts "Extension" ("Quantity " ++ toString qty ++ " × " ++ money line4.unit_price)
               (some (money (line4.unit_price * (qty : ℚ))))] }

/-- Warning bubbling of `calculate`: append each line warning not already
present (exact-string de-duplication). -/
def addWarnings (ws : List String) (lws : List String) : List String :=
  lws.foldl (fun acc w => if acc.contains w then acc else acc ++ [w]) ws

/-- Per-item step of the `calculate` loop: skip silently when the line
is `none`, else append the line, add its extension to the total, and
bubble its warnings. -/
def calcStep (e : PricingEngine) (today : String) (tier : String) (account_id : String)
    (res : Result) (item : String × Int) : Result :=
  match e.calculate_line today item.1 item.2 tier account_id with
  | none => res
  | some line =>
    { res with
      lines := res.lines ++ [line]
      total := res.total + line.extended_price
      warnings := addWarnings res.warnings line.warnings }

/-- Quote calculation of `PricingEngine.calculate`: resolve tier with
trace, initialise the result with intel and the tier trace, then process
each requested item in order. -/
def PricingEngine.calculate (e : PricingEngine) (today : String) (request : Request) : Result :=
  let tt := e.get_account_tier_with_trace request.account_id
  let res0 : Result :=
    { account_id := request.account_id
      tier := tt.1
      total := 0
      lines := []
      intel := e.get_account_intel request.account_id
      trace := tt.2 }
  request.items.foldl (calcStep e today tt.1 request.account_id) res0

/-- Row of `program_rules.csv` (read with `dtype=str`, no fillna);
`priorityStr` is the string-typed optional priority column. -/
structure ProgramRuleRow where
  match_type : String
  match_value : String
  program_id : String
  priorityStr : String := ""
  deriving Repr, DecidableEq

/-- Program resolver state: the rows of `program_rules.csv` and whether
the optional `priority` column exists in the file. -/
structure ProgramResolver where
  rows : List ProgramRuleRow
  hasPriorityCol : Bool := false
  deriving Repr, DecidableEq

/-- Descending string comparison used by
`sort_values('priority', ascending=False)` on the string-typed column. -/
def gePriorityStr (a b : ProgramRuleRow) : Bool :=
  decide (b.priorityStr ≤ a.priorityStr)

/-- Program resolution of `ProgramResolver.resolve_program`: order-type
match first, then exact account, then group (sorted descending by the
string priority column when it exists), then the `"STANDARD"` fallback. -/
def ProgramResolver.resolve_program (pr : ProgramResolver) (account_id : String)
    (account_groups : List String) (order_type : Option Int) : String :=
  if pr.rows.isEmpty then "STANDARD"
  else
    let byOrder : Option ProgramRuleRow :=
      match order_type with
      | some ot =>
        (pr.rows.filter (fun r => r.match_type == "order_type" && r.match_value == toString ot)).head?
      | none => none
    match byOrder with
    | some r => r.program_id
    | none =>
      match (pr.rows.filter (fun r => r.match_type == "account_id" && r.match_value == account_id)).head? with
      | some r => r.program_id
      | none =>
        match (if account_groups.isEmpty then none else
                 let m := pr.rows.filter
                   (fun r => r.match_type == "group_id" && account_groups.contains r.match_value)
                 let m := if pr.hasPriorityCol then m.mergeSort gePriorityStr else m
                 m.head?) with
        | some r => r.program_id
        | none => "STANDARD"

/-- Row of `terms_rules.csv` after load (strings stripped, blanks are
`""`); `min_total`/`max_total` are `none` when blank or unparseable
(`pd.to_numeric(errors='coerce')`), and `net_days` is `none` when the
cell does not parse as an integer (the source then defaults to 30). -/
structure TermsRow where
  program_id : String
  min_total : Option ℚ := none
  max_total : Option ℚ := none
  start_date : String := ""
  end_date : String := ""
  terms_code : String := "NET_30"
  net_days : Option Int := none
  dated_due_date : String := ""
  needs_review : Bool := false
  review_reason : String := ""
  deriving Repr, DecidableEq

/-- Row of `freight_rules.csv` after load; `ffa_percent` is `none` when
the cell is blank (falsy). -/
structure FreightRow where
  program_id : String
  min_total : Option ℚ := none
  max_total : Option ℚ := none
  start_date : String := ""
  end_date : String := ""
  customer_tier : String := ""
  freight_mode : String := "Customer Pays"
  bill_freight : String := "true"
  carrier_required : String := ""
  ffa_percent : Option ℚ := none
  deriving Repr, DecidableEq

/-- Row of `workflow_rules.csv` after load. -/
structure WorkflowRow where
  program_id : String
  match_type : String := ""
  match_value : String := ""
  hold_code : String
  message : String
  deriving Repr, DecidableEq

/-- Order policy engine state: program resolver plus the three optional
policy tables (an absent file loads as the empty table). -/
structure OrderPolicyEngine where
  program_resolver : ProgramResolver
  terms_rules : List TermsRow := []
  freight_rules : List FreightRow := []
  workflow_rules : List WorkflowRow := []
  deriving Repr, DecidableEq

/-- Row filter of `OrderPolicyEngine._find_best_matches`, generic over
the row type via projections: program filter with `"STANDARD"`
fallback, total-range filter (blank min is 0, blank max is +∞), then
the optional date filter (skipped when `request_date` is falsy). -/
def find_best_matches {α : Type} (df : List α) (pid : α → String)
    (minT maxT : α → Option ℚ) (sd ed : α → String) (program_id : String) (total : ℚ)
    (request_date : Option String) : List α :=
  let m := df.filter (fun r => pid r == program_id)
  let m := if m.isEmpty then df.filter (fun r => pid r == "STANDARD") else m
  if m.isEmpty then m
  else
    let m := m.filter (fun r =>
      decide ((minT r).getD 0 ≤ total) &&
      (match maxT r with
       | none => true
       | some mx => decide (total ≤ mx)))
    if isTruthy request_date then
      let d := pyStrip (request_date.getD "")
      let m := m.filter (fun r => sd r == "" || decide (sd r ≤ d))
      m.filter (fun r => ed r == "" || decide (d ≤ ed r))
    else m

/-- Default payment terms (NET_30, 30 days). -/
def defaultTerms : Terms :=
  { code := "NET_30"
    net_days := some 30
    due_date := none
    notes := ["Eligibility based on order_date, terms based on invoice_date"]
    needs_review := false
    review_reason := none }

/-- Terms computation of `OrderPolicyEngine._compute_terms`: first
surviving terms row decides the code; `DATED` takes the due date
verbatim, `CIA` forces 0 days, any other code parses `net_days`
(default 30); the row may set the needs-review flag. -/
def OrderPolicyEngine.compute_terms (pe : OrderPolicyEngine) (program_id : String)
    (total : ℚ) (request : Request) : Terms :=
  if pe.terms_rules.isEmpty then defaultTerms
  else
    match (find_best_matches pe.terms_rules (·.program_id) (·.min_total) (·.max_total)
            (·.start_date) (·.end_date) program_id total request.request_date).head? with
    | none => defaultTerms
    | some row =>
      let base := { defaultTerms with code := row.terms_code, notes := [] }
      let base :=
        if row.terms_code == "DATED" then
          { base with due_date := some row.dated_due_date, net_days := none }
        else if row.terms_code == "CIA" then
          { base with net_days := some 0 }
        else
          { base with net_days := some (row.net_days.getD 30) }
      if row.needs_review then
        { base with needs_review := true, review_reason := some row.review_reason }
      else base

/-- Default freight policy (customer pays carrier rate). -/
def defaultFreight : Freight :=
  { mode := "CUSTOMER_PAYS_CARRIER_RATE"
    carrier_required := none
    bill_freight := true
    freight_amount := none
    ffa_percent := none }

/-- Freight computation of `OrderPolicyEngine._compute_freight`:
best-match rows, then the customer-tier filter (exact tier preferred
over blank-tier wildcard rows), then the textual mode mapped to the API
mode. -/
def OrderPolicyEngine.compute_freight (pe : OrderPolicyEngine) (program_id : String)
    (total : ℚ) (request : Request) : Freight :=
  if pe.freight_rules.isEmpty then defaultFreight
  else
    let ms := find_best_matches pe.freight_rules (·.program_id) (·.min_total) (·.max_total)
      (·.start_date) (·.end_date) program_id total request.request_date
    let ms :=
      if ms.isEmpty then ms
      else
        let tier := pyUpper (if isTruthy request.customer_tier then request.customer_tier.getD "" else "")
        let tier_matches := ms.filter (fun r => r.customer_tier == tier)
        let wild_matches := ms.filter (fun r => r.customer_tier == "")
        if ¬ tier_matches.isEmpty then tier_matches
        else if ¬ wild_matches.isEmpty then wild_matches
        else []
    match ms.head? with
    | none => defaultFreight
    | some row =>
      let api_mode :=
        if row.freight_mode == "FFA" then "FFA"
        else if row.freight_mode == "Partial FFA" then "PARTIAL_FFA"
        else if row.freight_mode == "Ex Works" then "EX_WORKS"
        else if containsSub "SFT" row.freight_mode then "SFT_PERCENT"
        else "CUSTOMER_PAYS_CARRIER_RATE"
      { mode := api_mode
        carrier_required := some row.carrier_required
        bill_freight := pyLower row.bill_freight == "true"
        freight_amount := none
        ffa_percent := row.ffa_percent }

/-- Cent rounding of `round(x, 2)`; the float round-half-even of the
source is abstracted to rational rounding. -/
def round2 (q : ℚ) : ℚ :=
  (round (q * 100) : ℚ) / 100

/-- Expedited-carrier test of `_apply_sports_line_logic` (substring
match against PRIORITY/OVERNIGHT/2DAY/AIR on the uppercased method). -/
def isExpedited (ship_method : Option String) : Bool :=
  isTruthy ship_method &&
    (["PRIORITY", "OVERNIGHT", "2DAY", "AIR"].any
      (fun x => containsSub x (pyUpper (ship_method.getD ""))))

/-- Sports-line surcharge logic of
`OrderPolicyEngine._apply_sports_line_logic`: expedited ship methods
waive the surcharge and revert freight to customer-pays with
`bill_freight = true`; otherwise an 18%-of-total non-taxable `SFT_CHG`
adjustment is added and `bill_freight` is cleared. -/
def apply_sports_line_logic (policy : Policy) (request : Request) (total : ℚ) : Policy :=
  if isExpedited request.ship_method then
    { policy with freight := { policy.freight with mode := "CUSTOMER_PAYS_CARRIER_RATE", bill_freight := true } }
  else
    { policy with
      adjustments := policy.adjustments ++
        [{ code := "SFT_CHG"
           amount := round2 (total * 18 / 100)
           description := "18% SFT Charge"
           taxable := false }]
      freight := { policy.freight with bill_freight := false } }

/-- Hold computation of `OrderPolicyEngine._compute_holds`: the
international-forwarder check (guarded by a truthy `ship_to_type` in the
source), then the workflow-rule table rows scoped to this program or
`"ALL"` with `always` or exact `ship_method` matches. -/
def OrderPolicyEngine.compute_holds (pe : OrderPolicyEngine) (program_id : String)
    (request : Request) : List Hold :=
  let holds : List Hold :=
    if isTruthy request.ship_to_type && containsSub "INTERNATIONAL" (pyUpper program_id) then
      if pyUpper (request.ship_to_type.getD "") ≠ "FORWARDER" then
        [{ code := "HOLD_INTL_FORWARDER_REQUIRED"
           message := "International orders must ship to a freight forwarder."
           details := [("ship_to_type", request.ship_to_type)] }]
      else []
    else []
  if pe.workflow_rules.isEmpty then holds
  else
    holds ++ (pe.workflow_rules.filter
        (fun r => r.program_id == program_id || r.program_id == "ALL")).filterMap
      (fun row =>
        let should :=
          if row.match_type == "always" then true
          else if row.match_type == "ship_method" then request.ship_method == some row.match_value
          else false
        if should then some { code := row.hold_code, message := row.message, details := [] }
        else none)

/-- Credit-card terms forced by the global override of `apply_policies`. -/
def ccTerms : Terms :=
  { code := "NET_IMMEDIATE"
    net_days := some 0
    due_date := none
    notes := ["Credit Card Payment - Immediate Terms"]
    needs_review := false
    review_reason := none }

/-- Policy application of `OrderPolicyEngine.apply_policies`: resolve the
program, force `NET_IMMEDIATE` terms for credit-card payment (otherwise
compute program-specific terms), compute freight, apply the sports-line
surcharge logic, extend holds, and attach trade-in constraints for order
types 25/26.  The computed policy is attached to the result. -/
def OrderPolicyEngine.apply_policies (pe : OrderPolicyEngine) (request : Request)
    (result : Result) (account_groups : Option (List String)) : Result :=
  let program_id := pe.program_resolver.resolve_program request.account_id
    (account_groups.getD []) request.order_type
  let threshold_total := result.total
  let terms :=
    if request.payment_method == some "CC" then ccTerms
    else pe.compute_terms program_id threshold_total request
  let freight := pe.compute_freight program_id threshold_total request
  let policy1 : Policy :=
    { active_program_id := program_id
      terms := terms
      freight := freight
      holds := []
      adjustments := []
      constraints := [] }
  let policy2 :=
    if program_id == "SPORTS_LINE" then apply_sports_line_logic policy1 request threshold_total
    else policy1
  let policy3 := { policy2 with holds := policy2.holds ++ pe.compute_holds program_id request }
  let policy4 :=
    if request.order_type == some 25 || request.order_type == some 26 then
      { policy3 with constraints := [("no_rebate_stacking", true), ("no_discount_stacking", true)] }
    else policy3
  { result with policy := some policy4 }

/-! ### Shared demo data used by witnesses and counterexamples -/

/-- Demo rule: an unconditional 125% discount. -/
def negRule : Rule :=
  { rule_id := "R-NEG", action := .discount_percent 125 }

/-- Demo catalog row with MSRP 400 and no tier price columns. -/
def negRow : CatalogRow :=
  { sku := "SKU1", description := some "Widget", msrp := 400 }

/-- Demo engine with a single 400-MSRP SKU and the 125% discount rule. -/
def negEngine : PricingEngine :=
  { catalog := [negRow]
    program_map := []
    group_members := []
    account_intel := []
    rule_matcher := { rules := [negRule], loaded := true } }

/-- Demo request for one line of quantity 2. -/
def negReq : Request :=
  { account_id := "A1", items := [("SKU1", 2)] }

/-! ### Claim theorems -/

/-- C3: for every base price b and rule value v, `apply_rule_to_price`
computes: `discount_percent` gives b × (1 − v/100) (25% of 400 yields
300); `discount_amount` gives max(0, b − v) (50 off 400 yields 350);
`price_floor` gives max(b, v), only ever raising the price (floor 300 on
250 yields 300, on 400 leaves 400 unchanged); `override_unit_price`
gives v unconditionally; `set_tier` leaves the price unchanged and
returns the new tier. -/
theorem claim_C3_apply_rule_arithmetic (rid nm : String) (pri : Int) (reason : String)
    (b v : ℚ) (t s : String) :
    (apply_rule_to_price ⟨rid, nm, pri, .discount_percent v, reason⟩ b t).1 = b * (1 - v / 100) ∧
    (apply_rule_to_price ⟨rid, nm, pri, .discount_amount v, reason⟩ b t).1 = max 0 (b - v) ∧
    (apply_rule_to_price ⟨rid, nm, pri, .price_floor v, reason⟩ b t).1 = max b v ∧
    (apply_rule_to_price ⟨rid, nm, pri, .override_unit_price v, reason⟩ b t).1 = v ∧
    (apply_rule_to_price ⟨rid, nm, pri, .set_tier s, reason⟩ b t).1 = b ∧
    (apply_rule_to_price ⟨rid, nm, pri, .set_tier s, reason⟩ b t).2.1 = s ∧
    (apply_rule_to_price ⟨rid, nm, pri, .discount_percent 25, reason⟩ 400 t).1 = 300 ∧
    (apply_rule_to_price ⟨rid, nm, pri, .discount_amount 50, reason⟩ 400 t).1 = 350 ∧
    (apply_rule_to_price ⟨rid, nm, pri, .price_floor 300, reason⟩ 250 t).1 = 300 ∧
    (apply_rule_to_price ⟨rid, nm, pri, .price_floor 300, reason⟩ 400 t).1 = 400 := by
  refine ⟨rfl, rfl, ?_, rfl, rfl, rfl, by norm_num [apply_rule_to_price],
    by norm_num [apply_rule_to_price], by norm_num [apply_rule_to_price],
    by norm_num [apply_rule_to_price]⟩
  simp only [apply_rule_to_price]
  rcases lt_or_ge b v with h | h
  · simp [if_pos h, max_eq_right h.le]
  · simp [if_neg (not_lt.mpr h), max_eq_left h]

set_option maxHeartbeats 800000 in
/-- C10 (implicit): for every base price b > 0 and discount_percent value
v > 100, `apply_rule_to_price` returns a strictly negative price — the
percent action is not clamped at zero, unlike `discount_amount` which
is; consequently a line's unit and extended prices can be negative at
the engine's public interface (demonstrated on the demo engine, where a
125% discount on a 400 MSRP yields −100 per unit and −200 extended). -/
theorem claim_C10_negative_price (rid nm : String) (pri : Int) (reason : String)
    (b v : ℚ) (t : String) (hb : 0 < b) (hv : 100 < v) :
    (apply_rule_to_price ⟨rid, nm, pri, .discount_percent v, reason⟩ b t).1 < 0 ∧
    (∀ b' v' : ℚ, 0 ≤ (apply_rule_to_price ⟨rid, nm, pri, .discount_amount v', reason⟩ b' t).1) ∧
    ((negEngine.calculate "2026-01-01" negReq).lines.map (fun l => l.unit_price) = [-100] ∧
      (negEngine.calculate "2026-01-01" negReq).lines.map (fun l => l.extended_price) = [-200]) := by
  have h1 : pyStrip "SKU1" = "SKU1" := by decide
  have h2 : pyStrip "A1" = "A1" := by decide
  refine ⟨?_, fun b' v' => le_max_left 0 _, ?_, ?_⟩
  case refine_2 =>
    simp +decide [PricingEngine.calculate, calcStep, PricingEngine.calculate_line, h1, h2,
      PricingEngine.get_account_tier_with_trace, PricingEngine.get_account_intel, IntelRow.toDict,
      PricingEngine.accountGroups, uniques, addWarnings,
      pyJoin, lineGroupStr, lineMatchingRules, RuleMatcher.find_matching_rules, matchedRules, ruleMatch?, isTruthy, lePriority,
      apply_rule_to_price, applyPriceRule, CatalogRow.tierPrice, MatchedRule.isPriceAction,
      MatchedRule.isSetTier, Action.tierVal, money, ts, negEngine, negRow, negReq, negRule]
    norm_num
  case refine_3 =>
    simp +decide [PricingEngine.calculate, calcStep, PricingEngine.calculate_line, h1, h2,
      PricingEngine.get_account_tier_with_trace, PricingEngine.get_account_intel, IntelRow.toDict,
      PricingEngine.accountGroups, uniques, addWarnings,
      pyJoin, lineGroupStr, lineMatchingRules, RuleMatcher.find_matching_rules, matchedRules, ruleMatch?, isTruthy, lePriority,
      apply_rule_to_price, applyPriceRule, CatalogRow.tierPrice, MatchedRule.isPriceAction,
      MatchedRule.isSetTier, Action.tierVal, money, ts, negEngine, negRow, negReq, negRule]
    norm_num
  case refine_1 =>
    have h3 : 1 - v / 100 < 0 := by linarith
    calc b * (1 - v / 100) < b * 0 := mul_lt_mul_of_pos_left h3 hb
    _ = 0 := mul_zero b

/-- C10 witness: the negativity theorem applied at b = 400, v = 125. -/
theorem claim_C10_negative_price_witness :
    (apply_rule_to_price ⟨"R-NEG", "R-NEG", 50, .discount_percent 125, "default"⟩ 400 "MSRP").1 < 0 :=
  (claim_C10_negative_price "R-NEG" "R-NEG" 50 "default" 400 125 "MSRP"
    (by norm_num) (by norm_num)).1

/-- Sports-line logic only touches freight and adjustments, never terms. -/
theorem apply_sports_line_logic_terms (p : Policy) (r : Request) (t : ℚ) :
    (apply_sports_line_logic p r t).terms = p.terms := by
  unfold apply_sports_line_logic
  split <;> rfl

/-- Sports-line logic never touches holds. -/
theorem apply_sports_line_logic_holds (p : Policy) (r : Request) (t : ℚ) :
    (apply_sports_line_logic p r t).holds = p.holds := by
  unfold apply_sports_line_logic
  split <;> rfl

/-- Characterisation of the terms field attached by `apply_policies`:
credit-card payment forces `ccTerms`, anything else gets the
program-specific computation. -/
theorem apply_policies_terms (pe : OrderPolicyEngine) (request : Request) (result : Result)
    (groups : Option (List String)) :
    ∃ p : Policy, (pe.apply_policies request result groups).policy = some p ∧
      p.terms = (if request.payment_method == some "CC" then ccTerms
        else pe.compute_terms (pe.program_resolver.resolve_program request.account_id
          (groups.getD []) request.order_type) result.total request) := by
  unfold OrderPolicyEngine.apply_policies
  refine ⟨_, rfl, ?_⟩
  dsimp only
  split <;> split <;> simp [apply_sports_line_logic_terms]

/-- Characterisation of the holds attached by `apply_policies`: exactly
the output of `compute_holds` for the resolved program. -/
theorem apply_policies_holds (pe : OrderPolicyEngine) (request : Request) (result : Result)
    (groups : Option (List String)) :
    ∃ p : Policy, (pe.apply_policies request result groups).policy = some p ∧
      p.holds = pe.compute_holds (pe.program_resolver.resolve_program request.account_id
        (groups.getD []) request.order_type) request := by
  unfold OrderPolicyEngine.apply_policies
  refine ⟨_, rfl, ?_⟩
  dsimp only
  split <;> split <;> simp [apply_sports_line_logic_holds]

/-- C5: for every request with payment_method = "CC", `apply_policies`
yields terms code "NET_IMMEDIATE" with net_days = 0, regardless of the
resolved program, the order total, and the contents of the terms-rule
table (program-specific terms computation is skipped). -/
theorem claim_C5_cc_net_immediate (pe : OrderPolicyEngine) (request : Request)
    (result : Result) (groups : Option (List String))
    (h : request.payment_method = some "CC") :
    ∃ p : Policy, (pe.apply_policies request result groups).policy = some p ∧
      p.terms.code = "NET_IMMEDIATE" ∧ p.terms.net_days = some 0 := by
  obtain ⟨p, hp, ht⟩ := apply_policies_terms pe request result groups
  refine ⟨p, hp, ?_, ?_⟩ <;> rw [ht] <;> simp [h, ccTerms]

/-- Demo policy engine: one program rule mapping account "A" to the
INTERNATIONAL program; all other policy tables empty. -/
def intlPE : OrderPolicyEngine :=
  { program_resolver :=
      { rows := [{ match_type := "account_id", match_value := "A", program_id := "INTERNATIONAL" }] } }

/-- Demo request for account "A" with no ship-to-type (None) and
credit-card payment left unset. -/
def intlReq : Request :=
  { account_id := "A", items := [] }

/-- Demo result the policy layer is applied to. -/
def emptyRes : Result :=
  { account_id := "A", tier := "MSRP", total := 0, lines := [], intel := [] }

/-- C6 counterexample: the program resolved for the demo request contains
"INTERNATIONAL" and its ship-to-type (None) is not "FORWARDER", yet
`apply_policies` attaches no hold at all — the international-forwarder
check is skipped whenever ship_to_type is falsy, so it does not run for
every such request. -/
theorem claim_C6_counterexample :
    containsSub "INTERNATIONAL"
      (pyUpper (intlPE.program_resolver.resolve_program intlReq.account_id [] intlReq.order_type)) = true ∧
    intlReq.ship_to_type ≠ some "FORWARDER" ∧
    ∃ p : Policy, (intlPE.apply_policies intlReq emptyRes none).policy = some p ∧ p.holds = [] := by
  refine ⟨by decide, by decide, ?_⟩
  obtain ⟨p, hp, hh⟩ := apply_policies_holds intlPE intlReq emptyRes none
  refine ⟨p, hp, ?_⟩
  rw [hh]
  simp +decide [OrderPolicyEngine.compute_holds, isTruthy, intlPE, intlReq]

/-- C6 (amended): for every request whose resolved program id contains
"INTERNATIONAL" (case-insensitively) and whose ship-to-type is present,
non-empty, and not "FORWARDER" (case-insensitively), `apply_policies`
adds the mandatory HOLD_INTL_FORWARDER_REQUIRED hold; requests with an
absent or empty ship-to-type skip the check. -/
theorem claim_C6_amended (pe : OrderPolicyEngine) (request : Request) (result : Result)
    (groups : Option (List String)) (s : String)
    (hs : request.ship_to_type = some s) (hne : s ≠ "") (hfw : pyUpper s ≠ "FORWARDER")
    (hp : containsSub "INTERNATIONAL"
      (pyUpper (pe.program_resolver.resolve_program request.account_id
        (groups.getD []) request.order_type)) = true) :
    ∃ p : Policy, (pe.apply_policies request result groups).policy = some p ∧
      ∃ h ∈ p.holds, h.code = "HOLD_INTL_FORWARDER_REQUIRED" := by
  obtain ⟨p, hpol, hholds⟩ := apply_policies_holds pe request result groups
  refine ⟨p, hpol, ?_⟩
  rw [hholds]
  unfold OrderPolicyEngine.compute_holds
  simp [hs, isTruthy, hne, hp, hfw]
  refine ⟨{ code := "HOLD_INTL_FORWARDER_REQUIRED",
            message := "International orders must ship to a freight forwarder.",
            details := [("ship_to_type", some s)] }, ?_, rfl⟩
  split <;> exact List.mem_cons_self _ _

/-- Demo request with a truthy non-FORWARDER ship-to-type. -/
def intlReq2 : Request :=
  { account_id := "A", items := [], ship_to_type := some "RESIDENTIAL" }

/-- C6 amended witness: the amended theorem applied to the demo engine
and a request whose ship-to-type is "RESIDENTIAL". -/
theorem claim_C6_amended_witness :
    ∃ p : Policy, (intlPE.apply_policies intlReq2 emptyRes none).policy = some p ∧
      ∃ h ∈ p.holds, h.code = "HOLD_INTL_FORWARDER_REQUIRED" :=
  claim_C6_amended intlPE intlReq2 emptyRes none "RESIDENTIAL" rfl
    (by decide) (by decide) (by decide)

/-- Demo credit-card request. -/
def ccReq : Request :=
  { account_id := "A", items := [], payment_method := some "CC" }

/-- C5 witness: the credit-card theorem applied to the demo engine. -/
theorem claim_C5_cc_net_immediate_witness :
    ∃ p : Policy, (intlPE.apply_policies ccReq emptyRes none).policy = some p ∧
      p.terms.code = "NET_IMMEDIATE" ∧ p.terms.net_days = some 0 :=
  claim_C5_cc_net_immediate intlPE ccReq emptyRes none rfl

/-- C9 (implicit): two pricing requests identical except for their
request_date field (the ambient current date held fixed) yield the same
Result — `calculate` never passes `request.request_date` to rule
matching, so rule date gating during `calculate` is evaluated against
the ambient date only. -/
theorem claim_C9_request_date_immaterial (e : PricingEngine) (today : String)
    (request : Request) (d1 d2 : Option String) :
    e.calculate today { request with request_date := d1 } =
      e.calculate today { request with request_date := d2 } := rfl

/-- C8: `calculate` is deterministic as a two-run property: two calls
with the identical request, the same engine tables and the same ambient
date (the one piece of ambient state the source consults, modelled
explicitly) produce identical Results. -/
theorem claim_C8_calculate_deterministic (e e' : PricingEngine) (req req' : Request)
    (d d' : String) (he : e = e') (hr : req = req') (hd : d = d') :
    e.calculate d req = e'.calculate d' req' := by
  rw [he, hr, hd]

/-- C8 witness: the determinism theorem applied to the demo engine. -/
theorem claim_C8_calculate_deterministic_witness :
    negEngine.calculate "2026-01-01" negReq = negEngine.calculate "2026-01-01" negReq :=
  claim_C8_calculate_deterministic negEngine negEngine negReq negReq
    "2026-01-01" "2026-01-01" rfl rfl rfl

/-- C7: a requested SKU absent from the catalog produces no line, no
error and no warning, and leaves the rest of the Result exactly as if
that SKU had not been requested. -/
theorem claim_C7_missing_sku_skipped (e : PricingEngine) (today : String) (req : Request)
    (pre post : List (String × Int)) (sku : String) (q : Int)
    (habsent : ∀ row ∈ e.catalog, row.sku ≠ pyStrip sku) :
    e.calculate today { req with items := pre ++ (sku, q) :: post } =
      e.calculate today { req with items := pre ++ post } := by
  have hfind : e.catalog.find? (fun r => r.sku == pyStrip sku) = none := by
    rw [List.find?_eq_none]
    intro row hrow
    simpa using habsent row hrow
  have hline : ∀ tier acct, e.calculate_line today sku q tier acct = none := by
    intro tier acct
    unfold PricingEngine.calculate_line
    dsimp only
    rw [hfind]
  have hstep : ∀ res tier acct, calcStep e today tier acct res (sku, q) = res := by
    intro res tier acct
    unfold calcStep
    rw [hline]
  unfold PricingEngine.calculate
  dsimp only
  rw [List.foldl_append, List.foldl_append, List.foldl_cons, hstep]

/-- C7 witness: the theorem applied to the demo engine with the unknown
SKU "NOPE" inserted between the known item and the end of the cart. -/
theorem claim_C7_missing_sku_skipped_witness :
    negEngine.calculate "2026-01-01" { negReq with items := [("SKU1", 2), ("NOPE", 1)] } =
      negEngine.calculate "2026-01-01" { negReq with items := [("SKU1", 2)] } :=
  claim_C7_missing_sku_skipped negEngine "2026-01-01" negReq [("SKU1", 2)] [] "NOPE" 1
    (by decide)

/-- Formalisation of the spec sentence of claim C1, for comparison with
the source: on the group step, return the tier of the first group found
in the MEMBERSHIP table's order of appearance that has a direct-mapping
entry. -/
def resolveTierSpecOrder (pm : List MapRow) (gm : List GroupRow) (account_id : String) : String :=
  let a := pyStrip account_id
  match pm.find? (fun r => r.matchValue == a) with
  | some r => r.programId
  | none =>
    let groups := uniques ((gm.filter (fun r => r.accountNumber == a)).map (fun r => r.groupId))
    match groups.findSome? (fun g => (pm.find? (fun r => r.matchValue == g)).map (fun r => r.programId)) with
    | some t => t
    | none => "MSRP"

/-- Demo mapping tables where group order disagrees between the
membership table (G1 before G2) and the direct-mapping table (G2's row
before G1's row). -/
def pmDemo : List MapRow :=
  [{ matchValue := "G2", programId := "GOLD" }, { matchValue := "G1", programId := "SILVER" }]

/-- Demo membership table: account "A" belongs to G1 then G2. -/
def gmDemo : List GroupRow :=
  [{ accountNumber := "A", groupId := "G1" }, { accountNumber := "A", groupId := "G2" }]

/-- Demo engine for tier resolution only. -/
def tierEngineDemo : PricingEngine :=
  { catalog := []
    program_map := pmDemo
    group_members := gmDemo
    account_intel := []
    rule_matcher := { rules := [], loaded := false } }

/-- C1 counterexample: account "A" belongs to G1 (first in the
membership table) and G2; the claim picks G1's tier SILVER, but
`get_account_tier` returns GOLD because it takes the first matching row
of the direct-mapping table, not the first group of the membership
table. -/
theorem claim_C1_counterexample :
    tierEngineDemo.get_account_tier "A" = "GOLD" ∧
    resolveTierSpecOrder pmDemo gmDemo "A" = "SILVER" ∧
    tierEngineDemo.get_account_tier "A" ≠ resolveTierSpecOrder pmDemo gmDemo "A" := by
  refine ⟨by decide, by decide, by decide⟩

/-- Agreement of the traced and plain tier resolvers on the tier value. -/
theorem tier_trace_agrees (e : PricingEngine) (account_id : String) :
    (e.get_account_tier_with_trace account_id).1 = e.get_account_tier account_id := by
  unfold PricingEngine.get_account_tier_with_trace PricingEngine.get_account_tier
  dsimp only
  cases hfind : List.find? (fun r => r.matchValue == pyStrip account_id) e.program_map with
  | some r => simp [hfind]
  | none =>
    simp only [hfind]
    by_cases hg : (e.accountGroups (pyStrip account_id)).length > 0
    · cases hfind2 : List.find?
          (fun r => (e.accountGroups (pyStrip account_id)).contains r.matchValue) e.program_map with
      | some r => simp [hfind2, hg]
      | none => simp [hfind2, hg]
    · simp [hg]

/-- Closed-form characterisation of `get_account_tier`: exact account
row first, else the first direct-mapping row whose match value is among
the account's groups, else the MSRP fallback. -/
theorem get_account_tier_eq (e : PricingEngine) (account_id : String) :
    e.get_account_tier account_id =
      (match e.program_map.find? (fun r => r.matchValue == pyStrip account_id) with
       | some r => r.programId
       | none =>
         match e.program_map.find?
             (fun r => (e.accountGroups (pyStrip account_id)).contains r.matchValue) with
         | some r => r.programId
         | none => "MSRP") := by
  unfold PricingEngine.get_account_tier
  dsimp only
  cases hfind : List.find? (fun r => r.matchValue == pyStrip account_id) e.program_map with
  | some r => simp [hfind]
  | none =>
    simp only [hfind]
    by_cases hg : (e.accountGroups (pyStrip account_id)).length > 0
    · simp [hg]
    · have hempty : e.accountGroups (pyStrip account_id) = [] := by
        cases h : e.accountGroups (pyStrip account_id) with
        | nil => rfl
        | cons x xs => rw [h] at hg; simp at hg
      have hnone : List.find?
          (fun r => (e.accountGroups (pyStrip account_id)).contains r.matchValue) e.program_map = none := by
        rw [List.find?_eq_none]
        intro x _
        rw [hempty]
        simp
      rw [if_neg hg, hnone]

/-- Totality of tier resolution: the result is the MSRP fallback or the
tier of some direct-mapping row. -/
theorem get_account_tier_total (e : PricingEngine) (account_id : String) :
    e.get_account_tier account_id = "MSRP" ∨
      ∃ r ∈ e.program_map, e.get_account_tier account_id = r.programId := by
  rw [get_account_tier_eq]
  cases h1 : List.find? (fun r => r.matchValue == pyStrip account_id) e.program_map with
  | some r => exact Or.inr ⟨r, List.mem_of_find?_eq_some h1, rfl⟩
  | none =>
    cases h2 : List.find?
        (fun r => (e.accountGroups (pyStrip account_id)).contains r.matchValue) e.program_map with
    | some r => exact Or.inr ⟨r, List.mem_of_find?_eq_some h2, rfl⟩
    | none => exact Or.inl rfl

/-- C1 (amended): tier resolution (get_account_tier, and
get_account_tier_with_trace agreeing on the value) returns the tier of
the exact account match in the direct mapping table if one exists;
otherwise, if the account belongs to at least one group with a
direct-mapping entry, it returns the tier of the FIRST MATCHING ROW OF
THE DIRECT-MAPPING TABLE (mapping-table order, not membership-table
order); otherwise the fallback tier "MSRP".  It never returns an empty
tier provided no mapping row carries an empty tier. -/
theorem claim_C1_amended (e : PricingEngine) (account_id : String) :
    (e.get_account_tier_with_trace account_id).1 = e.get_account_tier account_id ∧
    e.get_account_tier account_id =
      (match e.program_map.find? (fun r => r.matchValue == pyStrip account_id) with
       | some r => r.programId
       | none =>
         match e.program_map.find?
             (fun r => (e.accountGroups (pyStrip account_id)).contains r.matchValue) with
         | some r => r.programId
         | none => "MSRP") ∧
    (e.get_account_tier account_id = "MSRP" ∨
      ∃ r ∈ e.program_map, e.get_account_tier account_id = r.programId) ∧
    ((∀ r ∈ e.program_map, r.programId ≠ "") → e.get_account_tier account_id ≠ "") := by
  refine ⟨tier_trace_agrees e account_id, get_account_tier_eq e account_id,
    get_account_tier_total e account_id, ?_⟩
  intro hne
  rcases get_account_tier_total e account_id with h | ⟨r, hr, heq⟩
  · rw [h]; decide
  · rw [heq]; exact hne r hr

/-- C1 amended witness: the amended theorem applied to the demo tables,
with the non-empty-tier side condition discharged concretely. -/
theorem claim_C1_amended_witness :
    tierEngineDemo.get_account_tier "A" ≠ "" ∧ tierEngineDemo.get_account_tier "A" = "GOLD" :=
  ⟨(claim_C1_amended tierEngineDemo "A").2.2.2 (by decide), by decide⟩

/-- Price component of a price-modifying rule application, independent
of the current tier. -/
def rulePrice (r : MatchedRule) (price : ℚ) : ℚ :=
  match r.action with
  | .override_unit_price v => v
  | .discount_percent v => price * (1 - v / 100)
  | .discount_amount v => max 0 (price - v)
  | .price_floor v => if price < v then v else price
  | _ => price

/-- Priority comparison is transitive. -/
theorem lePriority_trans (a b c : MatchedRule) :
    lePriority a b → lePriority b c → lePriority a c := by
  simp only [lePriority, decide_eq_true_eq]
  omega

/-- Priority comparison is total. -/
theorem lePriority_total (a b : MatchedRule) : lePriority a b || lePriority b a := by
  simp only [lePriority, Bool.or_eq_true, decide_eq_true_eq]
  omega

/-- Unit-price effect of one step of the price loop. -/
theorem applyPriceRule_unit_price (ln : LineItem) (r : MatchedRule)
    (h : r.isPriceAction = true) :
    (applyPriceRule ln r).unit_price = rulePrice r ln.unit_price := by
  cases hr : r.action <;>
    simp [MatchedRule.isPriceAction, hr] at h <;>
    simp [applyPriceRule, apply_rule_to_price, rulePrice, hr]
  split <;> rfl

/-- Rule-id bookkeeping of one step of the price loop. -/
theorem applyPriceRule_rules_applied (ln : LineItem) (r : MatchedRule) :
    (applyPriceRule ln r).rules_applied = ln.rules_applied ++ [r.rule_id] := rfl

/-- Unit price after the price loop of `_calculate_line` equals the fold
of the price-modifying rules, in list order, over the starting price. -/
theorem priceLoop_unit_price (ms : List MatchedRule) (ln : LineItem) :
    (ms.foldl (fun l r => if r.isPriceAction then applyPriceRule l r else l) ln).unit_price =
      (ms.filter (fun r => r.isPriceAction)).foldl (fun p r => rulePrice r p) ln.unit_price := by
  induction ms generalizing ln with
  | nil => rfl
  | cons r rest ih =>
    simp only [List.foldl_cons, List.filter_cons]
    by_cases h : r.isPriceAction = true
    · simp only [h, if_true, List.foldl_cons]
      rw [ih, applyPriceRule_unit_price ln r h]
    · simp only [h, if_false, Bool.false_eq_true]
      rw [ih]

/-- Applied rule ids after the price loop: the ids of the
price-modifying rules in list order, appended to the incoming ids. -/
theorem priceLoop_rules_applied (ms : List MatchedRule) (ln : LineItem) :
    (ms.foldl (fun l r => if r.isPriceAction then applyPriceRule l r else l) ln).rules_applied =
      ln.rules_applied ++ (ms.filter (fun r => r.isPriceAction)).map (fun r => r.rule_id) := by
  induction ms generalizing ln with
  | nil => simp
  | cons r rest ih =>
    simp only [List.foldl_cons, List.filter_cons]
    by_cases h : r.isPriceAction = true
    · simp only [h, if_true, List.map_cons]
      rw [ih, applyPriceRule_rules_applied]
      simp
    · simp only [h, if_false, Bool.false_eq_true]
      rw [ih]

/-- Rule lookup with a `None` request date: the encounter-order matches
against the ambient date, stably sorted by priority. -/
theorem find_matching_rules_none_date (m : RuleMatcher) (h : m.loaded = true)
    (a : String) (g : Option String) (s : String) (q : Int) (today : String) :
    m.find_matching_rules a g s q none today =
      (matchedRules m.rules a g s q today).mergeSort lePriority := by
  unfold RuleMatcher.find_matching_rules
  simp [h, isTruthy]

/-- Stable sort preserves the relative order of equal-priority rules:
for every priority value, the sorted list restricted to that priority
equals the encounter-order list restricted to it. -/
theorem mergeSort_filter_priority (pre : List MatchedRule) (p : Int) :
    (pre.mergeSort lePriority).filter (fun r => r.priority == p) =
      pre.filter (fun r => r.priority == p) := by
  have hpw : (pre.filter (fun r => r.priority == p)).Pairwise (fun a b => lePriority a b) := by
    apply List.pairwise_of_forall_mem_list
    intro a ha b hb
    have ha2 := (List.mem_filter.mp ha).2
    have hb2 := (List.mem_filter.mp hb).2
    simp only [beq_iff_eq] at ha2 hb2
    simp [lePriority, ha2, hb2]
  have hsub : (pre.filter (fun r => r.priority == p)).Sublist (pre.mergeSort lePriority) :=
    List.sublist_mergeSort lePriority_trans lePriority_total hpw (List.filter_sublist pre)
  have hsub2 : (pre.filter (fun r => r.priority == p)).Sublist
      ((pre.mergeSort lePriority).filter (fun r => r.priority == p)) := by
    have := hsub.filter (fun r => r.priority == p)
    rwa [List.filter_filter, (by simp : (fun a => (a.priority == p) && (a.priority == p)) =
      (fun a : MatchedRule => a.priority == p))] at this
  have hperm : List.Perm ((pre.mergeSort lePriority).filter (fun r => r.priority == p))
      (pre.filter (fun r => r.priority == p)) :=
    (List.mergeSort_perm pre lePriority).filter (fun r => r.priority == p)
  exact (hsub2.eq_of_length hperm.length_eq.symm).symm

/-- Demo rules for the C2 witness: two price rules and two set_tier
rules, deliberately listed with the lower priority later. -/
def prioRules : List Rule :=
  [{ rule_id := "R-B", priority := 20, action := .discount_amount 50 },
   { rule_id := "R-T2", priority := 30, action := .set_tier "BRONZE" },
   { rule_id := "R-A", priority := 10, action := .discount_percent 25 },
   { rule_id := "R-T1", priority := 15, action := .set_tier "GOLD" }]

/-- Demo engine for the C2 witness: one SKU with a GOLD tier price. -/
def prioEngine : PricingEngine :=
  { catalog := [{ sku := "SKU1", description := some "Widget", msrp := 500,
                  tierPrices := [("GOLD_Price", 400)] }]
    program_map := []
    group_members := []
    account_intel := []
    rule_matcher := { rules := prioRules, loaded := true } }

/-- C2: matched rules are sorted ascending by integer priority with ties
keeping encounter order (stable sort); only the first `set_tier` rule in
that order is applied, before the catalog price lookup (the lookup uses
the effective tier it sets); all matching price-modifying rules are then
applied cumulatively in the same priority order, each output feeding the
next input. -/
theorem claim_C2_priority_ordering (e : PricingEngine) (today sku0 : String) (qty : Int)
    (tier acct0 : String) (product : CatalogRow)
    (hl : e.rule_matcher.loaded = true) (ha : pyStrip acct0 ≠ "")
    (hsku : e.catalog.find? (fun r => r.sku == pyStrip sku0) = some product) :
    List.Pairwise (fun a b => a.priority ≤ b.priority)
      (e.rule_matcher.find_matching_rules (pyStrip acct0) (lineGroupStr e (pyStrip acct0))
        (pyStrip sku0) qty none today) ∧
    (∀ p : Int,
      (e.rule_matcher.find_matching_rules (pyStrip acct0) (lineGroupStr e (pyStrip acct0))
          (pyStrip sku0) qty none today).filter (fun r => r.priority == p) =
        (matchedRules e.rule_matcher.rules (pyStrip acct0) (lineGroupStr e (pyStrip acct0))
          (pyStrip sku0) qty today).filter (fun r => r.priority == p)) ∧
    (∃ line, e.calculate_line today sku0 qty tier acct0 = some line ∧
      (let ms := e.rule_matcher.find_matching_rules (pyStrip acct0)
        (lineGroupStr e (pyStrip acct0)) (pyStrip sku0) qty none today
       let eff := match ms.find? (fun r => r.isSetTier) with
        | some r => r.action.tierVal
        | none => tier
       let base := match product.tierPrice (eff ++ "_Price") with
        | some pr => pr
        | none => product.msrp
       line.unit_price =
          (ms.filter (fun r => r.isPriceAction)).foldl (fun pr r => rulePrice r pr) base ∧
        line.rules_applied =
          (match ms.find? (fun r => r.isSetTier) with
           | some r => [r.rule_id]
           | none => []) ++
            (ms.filter (fun r => r.isPriceAction)).map (fun r => r.rule_id))) := by
  have hms := find_matching_rules_none_date e.rule_matcher hl (pyStrip acct0)
    (lineGroupStr e (pyStrip acct0)) (pyStrip sku0) qty today
  refine ⟨?_, ?_, ?_⟩
  · rw [hms]
    have := List.sorted_mergeSort lePriority_trans lePriority_total
      (matchedRules e.rule_matcher.rules (pyStrip acct0) (lineGroupStr e (pyStrip acct0))
        (pyStrip sku0) qty today)
    exact this.imp (by intro a b hab; simpa [lePriority] using hab)
  · intro p
    rw [hms]
    exact mergeSort_filter_priority _ p
  · unfold PricingEngine.calculate_line
    dsimp only
    rw [hsku]
    rw [show lineMatchingRules e today (pyStrip sku0) (pyStrip acct0) qty =
      e.rule_matcher.find_matching_rules (pyStrip acct0) (lineGroupStr e (pyStrip acct0))
        (pyStrip sku0) qty none today from by unfold lineMatchingRules; rw [if_pos ⟨hl, ha⟩]]
    refine ⟨_, rfl, ?_, ?_⟩
    · dsimp only
      cases hst : (e.rule_matcher.find_matching_rules (pyStrip acct0)
          (lineGroupStr e (pyStrip acct0)) (pyStrip sku0) qty none today).find?
          (fun r => r.isSetTier) with
      | some r =>
        cases hbp : product.tierPrice (r.action.tierVal ++ "_Price") with
        | some pr => simp only [hst, hbp, priceLoop_unit_price]
        | none => simp only [hst, hbp, priceLoop_unit_price]
      | none =>
        cases hbp : product.tierPrice (tier ++ "_Price") with
        | some pr => simp only [hst, hbp, priceLoop_unit_price]
        | none => simp only [hst, hbp, priceLoop_unit_price]
    · dsimp only
      cases hst : (e.rule_matcher.find_matching_rules (pyStrip acct0)
          (lineGroupStr e (pyStrip acct0)) (pyStrip sku0) qty none today).find?
          (fun r => r.isSetTier) with
      | some r =>
        cases hbp : product.tierPrice (r.action.tierVal ++ "_Price") with
        | some pr =>
          simp only [hst, hbp, priceLoop_rules_applied]
          simp
          cases lineGroupStr e (pyStrip acct0) <;> rfl
        | none =>
          simp only [hst, hbp, priceLoop_rules_applied]
          simp
          cases lineGroupStr e (pyStrip acct0) <;> rfl
      | none =>
        cases hbp : product.tierPrice (tier ++ "_Price") with
        | some pr =>
          simp only [hst, hbp, priceLoop_rules_applied]
          simp
          cases lineGroupStr e (pyStrip acct0) <;> rfl
        | none =>
          simp only [hst, hbp, priceLoop_rules_applied]
          simp
          cases lineGroupStr e (pyStrip acct0) <;> rfl

/-- C2 witness: the priority-ordering theorem applied to the demo engine
with four rules listed out of priority order. -/
theorem claim_C2_priority_ordering_witness :
    List.Pairwise (fun a b => a.priority ≤ b.priority)
      (prioEngine.rule_matcher.find_matching_rules (pyStrip "A1")
        (lineGroupStr prioEngine (pyStrip "A1")) (pyStrip "SKU1") 1 none "2026-01-01") ∧
    ∃ line, prioEngine.calculate_line "2026-01-01" "SKU1" 1 "MSRP" "A1" = some line := by
  have h := claim_C2_priority_ordering prioEngine "2026-01-01" "SKU1" 1 "MSRP" "A1"
    { sku := "SKU1", description := some "Widget", msrp := 500, tierPrices := [("GOLD_Price", 400)] }
    rfl (by decide) rfl
  exact ⟨h.1, h.2.2.elim fun l hl => ⟨l, hl.1⟩⟩

/-- Membership in the de-duplicating warning fold. -/
theorem mem_addWarnings (ws lws : List String) (w : String) :
    w ∈ addWarnings ws lws ↔ w ∈ ws ∨ w ∈ lws := by
  induction lws generalizing ws with
  | nil => simp [addWarnings]
  | cons l ls ih =>
    show w ∈ addWarnings (if ws.contains l then ws else ws ++ [l]) ls ↔ _
    rw [ih]
    by_cases hc : ws.contains l
    · have hl : l ∈ ws := by simpa using hc
      simp only [hc, if_true, List.mem_cons]
      constructor
      · tauto
      · rintro (h | h | h)
        · exact Or.inl h
        · exact Or.inl (h ▸ hl)
        · exact Or.inr h
    · have hl : l ∉ ws := by simpa using hc
      rw [if_neg hc]
      simp only [List.mem_append, List.mem_singleton, List.mem_cons]
      tauto

/-- The de-duplicating warning fold preserves Nodup. -/
theorem addWarnings_nodup (ws lws : List String) (h : ws.Nodup) :
    (addWarnings ws lws).Nodup := by
  induction lws generalizing ws with
  | nil => exact h
  | cons l ls ih =>
    have hstep : addWarnings ws (l :: ls) =
        addWarnings (if ws.contains l then ws else ws ++ [l]) ls := rfl
    rw [hstep]
    apply ih
    by_cases hc : ws.contains l
    · rw [if_pos hc]; exact h
    · have hl : l ∉ ws := by simpa using hc
      rw [if_neg hc]
      simp [List.nodup_append, h, hl]

/-- Result warnings only grow along the per-item fold of `calculate`. -/
theorem foldl_calcStep_warnings_mono (e : PricingEngine) (today t a : String)
    (items : List (String × Int)) (res : Result) (w : String) (h : w ∈ res.warnings) :
    w ∈ (items.foldl (calcStep e today t a) res).warnings := by
  induction items generalizing res with
  | nil => exact h
  | cons item rest ih =>
    apply ih
    unfold calcStep
    cases hline : e.calculate_line today item.1 item.2 t a with
    | none => exact h
    | some line => exact (mem_addWarnings _ _ _).mpr (Or.inl h)

/-- Every warning of every produced line reaches the Result's warning
set (de-duplicated by exact string). -/
theorem calculate_warning_mem (e : PricingEngine) (today : String) (req : Request)
    (pre post : List (String × Int)) (sku0 : String) (qty : Int) (line : LineItem) (w : String)
    (hitems : req.items = pre ++ (sku0, qty) :: post)
    (hline : e.calculate_line today sku0 qty (e.get_account_tier_with_trace req.account_id).1
      req.account_id = some line)
    (hw : w ∈ line.warnings) :
    w ∈ (e.calculate today req).warnings := by
  unfold PricingEngine.calculate
  dsimp only
  rw [hitems, List.foldl_append, List.foldl_cons]
  apply foldl_calcStep_warnings_mono
  unfold calcStep
  rw [hline]
  exact (mem_addWarnings _ _ _).mpr (Or.inr hw)

/-- The Result's warning set is duplicate-free. -/
theorem calculate_warnings_nodup (e : PricingEngine) (today : String) (req : Request) :
    (e.calculate today req).warnings.Nodup := by
  unfold PricingEngine.calculate
  dsimp only
  have hgen : ∀ (items : List (String × Int)) (res : Result), res.warnings.Nodup →
      (items.foldl (calcStep e today (e.get_account_tier_with_trace req.account_id).1
        req.account_id) res).warnings.Nodup := by
    intro items
    induction items with
    | nil => intro res h; exact h
    | cons item rest ih =>
      intro res h
      apply ih
      unfold calcStep
      cases e.calculate_line today item.1 item.2
          (e.get_account_tier_with_trace req.account_id).1 req.account_id with
      | none => exact h
      | some line => exact addWarnings_nodup _ _ h
  exact hgen _ _ (by simp)

/-- The price loop never touches a line's warnings. -/
theorem priceLoop_warnings (ms : List MatchedRule) (ln : LineItem) :
    (ms.foldl (fun l r => if r.isPriceAction then applyPriceRule l r else l) ln).warnings =
      ln.warnings := by
  induction ms generalizing ln with
  | nil => rfl
  | cons r rest ih =>
    simp only [List.foldl_cons]
    by_cases h : r.isPriceAction = true
    · rw [if_pos h, ih]; rfl
    · rw [if_neg h, ih]

/-- The price loop never touches a line's tier_used. -/
theorem priceLoop_tier_used (ms : List MatchedRule) (ln : LineItem) :
    (ms.foldl (fun l r => if r.isPriceAction then applyPriceRule l r else l) ln).tier_used =
      ln.tier_used := by
  induction ms generalizing ln with
  | nil => rfl
  | cons r rest ih =>
    simp only [List.foldl_cons]
    by_cases h : r.isPriceAction = true
    · rw [if_pos h, ih]; rfl
    · rw [if_neg h, ih]

/-- With no matching price-modifying rule the price loop is a no-op. -/
theorem priceLoop_no_price (ms : List MatchedRule) (ln : LineItem)
    (h : ms.filter (fun r => r.isPriceAction) = []) :
    ms.foldl (fun l r => if r.isPriceAction then applyPriceRule l r else l) ln = ln := by
  induction ms generalizing ln with
  | nil => rfl
  | cons r rest ih =>
    rw [List.filter_cons] at h
    by_cases hr : r.isPriceAction = true
    · simp [hr] at h
    · simp only [hr, if_false, Bool.false_eq_true, List.foldl_cons] at *
      exact ih ln h

/-- MSRP-fallback characterisation of one line: when the effective-tier
price column is absent or null for the product, the line carries
tier_used "MSRP" and the fallback warning; and when additionally no
price-modifying rule matches, its unit price is the catalog MSRP with
source "MSRP". -/
theorem calculate_line_msrp_fallback (e : PricingEngine) (today sku0 : String) (qty : Int)
    (tier acct0 : String) (product : CatalogRow)
    (hsku : e.catalog.find? (fun r => r.sku == pyStrip sku0) = some product)
    (hbp : product.tierPrice
      (lineEffectiveTier e today (pyStrip sku0) (pyStrip acct0) qty tier ++ "_Price") = none) :
    ∃ line, e.calculate_line today sku0 qty tier acct0 = some line ∧
      line.tier_used = "MSRP" ∧
      ("MSRP fallback used for SKU " ++ pyStrip sku0) ∈ line.warnings ∧
      ((lineMatchingRules e today (pyStrip sku0) (pyStrip acct0) qty).filter
          (fun r => r.isPriceAction) = [] →
        line.unit_price = product.msrp ∧ line.source = "MSRP") := by
  unfold PricingEngine.calculate_line
  dsimp only
  rw [hsku]
  unfold lineEffectiveTier at hbp
  cases hst : (lineMatchingRules e today (pyStrip sku0) (pyStrip acct0) qty).find?
      (fun r => r.isSetTier) with
  | some r =>
    rw [hst] at hbp
    simp only [hst, hbp]
    refine ⟨_, rfl, ?_, ?_, ?_⟩
    · rw [priceLoop_tier_used]
    · rw [priceLoop_warnings]
      cases lineGroupStr e (pyStrip acct0) <;> simp
    · intro hnp
      rw [priceLoop_no_price _ _ hnp]
      exact ⟨rfl, rfl⟩
  | none =>
    rw [hst] at hbp
    simp only [hst, hbp]
    refine ⟨_, rfl, ?_, ?_, ?_⟩
    · rw [priceLoop_tier_used]
    · rw [priceLoop_warnings]
      cases lineGroupStr e (pyStrip acct0) <;> simp
    · intro hnp
      rw [priceLoop_no_price _ _ hnp]
      exact ⟨rfl, rfl⟩

/-- C4 (amended): for every catalogued SKU whose effective-tier price
column is absent or null, the produced line has tier_used "MSRP"
regardless of the effective tier, and the warning naming that SKU is
present in the line's warnings and bubbled into the Result's
de-duplicated warning set; its unit_price equals the catalog MSRP with
source "MSRP" provided no price-modifying rule matches the line
(a matching price rule afterwards overwrites unit_price and tags the
source "Rule"). -/
theorem claim_C4_amended (e : PricingEngine) (today : String) (req : Request)
    (pre post : List (String × Int)) (sku0 : String) (qty : Int) (product : CatalogRow)
    (hitems : req.items = pre ++ (sku0, qty) :: post)
    (hsku : e.catalog.find? (fun r => r.sku == pyStrip sku0) = some product)
    (hbp : product.tierPrice
      (lineEffectiveTier e today (pyStrip sku0) (pyStrip req.account_id) qty
        (e.get_account_tier_with_trace req.account_id).1 ++ "_Price") = none) :
    (∃ line, e.calculate_line today sku0 qty (e.get_account_tier_with_trace req.account_id).1
        req.account_id = some line ∧
      line.tier_used = "MSRP" ∧
      ("MSRP fallback used for SKU " ++ pyStrip sku0) ∈ line.warnings ∧
      ((lineMatchingRules e today (pyStrip sku0) (pyStrip req.account_id) qty).filter
          (fun r => r.isPriceAction) = [] →
        line.unit_price = product.msrp ∧ line.source = "MSRP")) ∧
    ("MSRP fallback used for SKU " ++ pyStrip sku0) ∈ (e.calculate today req).warnings ∧
    (e.calculate today req).warnings.Nodup := by
  obtain ⟨line, hline, htier, hw, hnp⟩ := calculate_line_msrp_fallback e today sku0 qty
    (e.get_account_tier_with_trace req.account_id).1 req.account_id product hsku hbp
  refine ⟨⟨line, hline, htier, hw, hnp⟩, ?_, calculate_warnings_nodup e today req⟩
  exact calculate_warning_mem e today req pre post sku0 qty line _ hitems hline hw

set_option maxHeartbeats 1600000 in
/-- C4 counterexample: the demo SKU has no MSRP_Price column (the
effective tier is MSRP), so the claim's premise holds and the fallback
warning and tier are produced — but a matching 125% discount rule then
rewrites the price, so the produced line has unit_price −100 ≠ 400
(the catalog MSRP) and source "Rule" ≠ "MSRP", contradicting the claim
as stated. -/
theorem claim_C4_counterexample :
    negRow.tierPrice ("MSRP" ++ "_Price") = none ∧
    negRow.msrp = 400 ∧
    (negEngine.calculate_line "2026-01-01" "SKU1" 2 "MSRP" "A1").map (fun l => l.unit_price) =
      some (-100) ∧
    (-100 : ℚ) ≠ 400 ∧
    (negEngine.calculate_line "2026-01-01" "SKU1" 2 "MSRP" "A1").map (fun l => l.source) =
      some "Rule" ∧
    "Rule" ≠ "MSRP" ∧
    (negEngine.calculate_line "2026-01-01" "SKU1" 2 "MSRP" "A1").map (fun l => l.tier_used) =
      some "MSRP" ∧
    (negEngine.calculate_line "2026-01-01" "SKU1" 2 "MSRP" "A1").map (fun l => l.warnings) =
      some ["MSRP fallback used for SKU " ++ "SKU1"] := by
  have h1 : pyStrip "SKU1" = "SKU1" := by decide
  have h2 : pyStrip "A1" = "A1" := by decide
  refine ⟨by decide, by decide, ?_, by norm_num, ?_, by decide, ?_, ?_⟩ <;>
    simp +decide [PricingEngine.calculate_line, h1, h2,
      PricingEngine.accountGroups, uniques, addWarnings,
      pyJoin, lineGroupStr, lineMatchingRules, RuleMatcher.find_matching_rules,
      matchedRules, ruleMatch?, isTruthy, lePriority,
      apply_rule_to_price, applyPriceRule, CatalogRow.tierPrice, MatchedRule.isPriceAction,
      MatchedRule.isSetTier, Action.tierVal, money, ts, negEngine, negRow, negReq, negRule] <;>
    norm_num

set_option maxHeartbeats 800000 in
/-- C4 amended witness: the amended theorem applied to the demo engine,
whose single SKU falls back to MSRP; the fallback warning reaches the
Result's de-duplicated warning set. -/
theorem claim_C4_amended_witness :
    ("MSRP fallback used for SKU " ++ pyStrip "SKU1") ∈
        (negEngine.calculate "2026-01-01" negReq).warnings ∧
      (negEngine.calculate "2026-01-01" negReq).warnings.Nodup := by
  have h1 : pyStrip "SKU1" = "SKU1" := by decide
  have h2 : pyStrip "A1" = "A1" := by decide
  have hbp : negRow.tierPrice
      (lineEffectiveTier negEngine "2026-01-01" (pyStrip "SKU1") (pyStrip negReq.account_id) 2
        (negEngine.get_account_tier_with_trace negReq.account_id).1 ++ "_Price") = none := by
    simp +decide [lineEffectiveTier, lineMatchingRules, lineGroupStr,
      RuleMatcher.find_matching_rules, matchedRules, ruleMatch?, isTruthy, lePriority,
      PricingEngine.get_account_tier_with_trace, PricingEngine.accountGroups, uniques,
      CatalogRow.tierPrice, MatchedRule.isSetTier, negEngine, negRow, negReq, negRule, h1, h2]
  have h := claim_C4_amended negEngine "2026-01-01" negReq [] [] "SKU1" 2 negRow rfl rfl hbp
  exact ⟨h.2.1, h.2.2⟩

end PricingTool
